import Mathlib

/-!
Verification of the agentcore-in-action demonstration scripts.

Python strings are modelled as `List Char` (sequences of Unicode scalar
values); Python machine behaviour that the scripts rely on (dict lookup,
list indexing, string split, truthiness) is embedded explicitly.  Fallible
Python code is modelled with `Except`/`Option`: an `Except.error` value is
an uncaught Python exception.
-/

/-- A Python `str`, as a list of Unicode scalar values. -/
abbrev Str := List Char

/-- Coerce a Lean string literal to the `Str` model. -/
def str (s : String) : Str := s.data

/-- Python `s.split(sep)` for a single-character separator: splits on every
occurrence, `"".split(sep) == [""]`. -/
def pySplit (sep : Char) : Str → List Str
  | [] => [[]]
  | c :: cs =>
    match pySplit sep cs with
    | [] => [[]]
    | h :: t => if c = sep then [] :: h :: t else (c :: h) :: t

/-- Python truthiness of an `os.getenv` result: `None` and `""` are falsy. -/
def pyFalsyOptStr : Option String → Bool
  | none => true
  | some v => v = ""

/-! ## `mcp_server_with_oauth_gateway/interceptor.py`: `decode_jwt_payload`

The function splits the token on `"."`, checks for exactly three parts,
pads the middle part with `'='` and feeds it through
`base64.urlsafe_b64decode` and `json.loads`.  The two library functions are
taken as parameters (`urlsafe_b64decode`, `json_loads`); the control flow,
the split and the padding are translated from the source. -/

/-- `decode_jwt_payload` from `interceptor.py`, lines 10-20. -/
def decode_jwt_payload {α β : Type} (urlsafe_b64decode : Str → α)
    (json_loads : α → β) (token : Str) : Except String β :=
  let parts := pySplit '.' token
  if parts.length ≠ 3 then
    .error "Invalid JWT format"
  else
    let payload := parts[1]!
    let padding := 4 - payload.length % 4
    let payload := if padding ≠ 4 then payload ++ List.replicate padding '=' else payload
    .ok (json_loads (urlsafe_b64decode payload))

/-- C3: with three parts, `decode_jwt_payload` returns
`json_loads (b64decode (payload ++ pad))` where the pad brings the length to
a multiple of 4; otherwise it raises `ValueError("Invalid JWT format")`. -/
theorem decode_jwt_payload_spec {α β : Type} (urlsafe_b64decode : Str → α)
    (json_loads : α → β) (token : Str) :
    ((pySplit '.' token).length ≠ 3 →
      decode_jwt_payload urlsafe_b64decode json_loads token = .error "Invalid JWT format") ∧
    ((pySplit '.' token).length = 3 →
      ∃ k, ((pySplit '.' token)[1]!.length + k) % 4 = 0 ∧
        decode_jwt_payload urlsafe_b64decode json_loads token =
          .ok (json_loads (urlsafe_b64decode
            ((pySplit '.' token)[1]! ++ List.replicate k '=')))) := by
  constructor
  · intro h
    simp [decode_jwt_payload, h]
  · intro h
    refine ⟨if (pySplit '.' token)[1]!.length % 4 = 0 then 0 else
      4 - (pySplit '.' token)[1]!.length % 4, ?_, ?_⟩
    · split
      · omega
      · have := Nat.mod_lt (pySplit '.' token)[1]!.length (show 0 < 4 by omega)
        omega
    · by_cases hmod : (pySplit '.' token)[1]!.length % 4 = 0
      · have h4 : ¬ (4 - (pySplit '.' token)[1]!.length % 4 ≠ 4) := by omega
        simp [decode_jwt_payload, h, hmod, h4]
      · have h4 : 4 - (pySplit '.' token)[1]!.length % 4 ≠ 4 := by
          have := Nat.mod_lt (pySplit '.' token)[1]!.length (show 0 < 4 by omega)
          omega
        simp [decode_jwt_payload, h, hmod, h4]

/-- Witness for C3 at the token `"a.bc.d"`. -/
theorem decode_jwt_payload_spec_witness :
    (pySplit '.' (str "a.bc.d")).length = 3 ∧
    ∃ k, ((pySplit '.' (str "a.bc.d"))[1]!.length + k) % 4 = 0 ∧
      decode_jwt_payload (α := Str) (β := Str) id id (str "a.bc.d") =
        .ok (id (id ((pySplit '.' (str "a.bc.d"))[1]! ++ List.replicate k '='))) :=
  ⟨by decide, (decode_jwt_payload_spec (α := Str) (β := Str) id id (str "a.bc.d")).2 (by decide)⟩

/-- C4: the extracted claims depend only on the middle (payload) part. -/
theorem decode_jwt_payload_ignores_header_and_signature {α β : Type}
    (urlsafe_b64decode : Str → α) (json_loads : α → β) (t₁ t₂ : Str)
    (h₁ : (pySplit '.' t₁).length = 3) (h₂ : (pySplit '.' t₂).length = 3)
    (hp : (pySplit '.' t₁)[1]! = (pySplit '.' t₂)[1]!) :
    decode_jwt_payload urlsafe_b64decode json_loads t₁ =
      decode_jwt_payload urlsafe_b64decode json_loads t₂ := by
  simp [decode_jwt_payload, h₁, h₂, hp]

/-- Witness for C4: two tokens with equal payloads but different header and
signature decode to the same claims. -/
theorem decode_jwt_payload_ignores_header_and_signature_witness :
    (pySplit '.' (str "aaa.bc.d")).length = 3 ∧
    (pySplit '.' (str "xy.bc.zzz")).length = 3 ∧
    (pySplit '.' (str "aaa.bc.d"))[1]! = (pySplit '.' (str "xy.bc.zzz"))[1]! ∧
    decode_jwt_payload (α := Str) (β := Str) id id (str "aaa.bc.d") =
      decode_jwt_payload (α := Str) (β := Str) id id (str "xy.bc.zzz") :=
  ⟨by decide, by decide, by decide,
    decode_jwt_payload_ignores_header_and_signature id id _ _
      (by decide) (by decide) (by decide)⟩

/-! ## `say-hello-to-authorized-customer/construct.py`

`main` provisions six resource kinds in a fixed order and `cleanup` deletes
them, each deletion guarded by the presence of its config key and wrapped in
`try/except` that prints and continues.  The boto3 delete calls are modelled
by an environment `throws : ResourceKind → Bool` saying which delete call
raises; the call arguments (names split out of the stored ARNs) do not
affect which deletions are attempted and are elided. -/

/-- The six resource kinds `construct.py` provisions and deletes. -/
inductive ResourceKind where
  | gatewayTarget
  | gateway
  | oauthProvider
  | workloadIdentity
  | cognito
  | iamRole
deriving DecidableEq

/-- `"k" in config` for the flat JSON config dict. -/
def hasKey (config : List (String × String)) (k : String) : Bool :=
  config.any (fun p => p.1 == k)

/-- One guarded `try: delete... except Exception: print` block of `cleanup`:
the deletion is attempted and its success recorded; an exception is caught. -/
def cleanupStep (throws : ResourceKind → Bool) (k : ResourceKind) :
    List (ResourceKind × Bool) :=
  if throws k then [(k, false)] else [(k, true)]

/-- `cleanup` from `construct.py`, lines 242-310: the six guarded deletion
blocks in source order.  The result is the log of attempted deletions with
their outcomes; `Except.error` would model an exception escaping `cleanup`. -/
def cleanup (config : List (String × String)) (throws : ResourceKind → Bool) :
    Except String (List (ResourceKind × Bool)) :=
  .ok
    ((if hasKey config "gateway_id" && hasKey config "target_id" then
        cleanupStep throws .gatewayTarget else []) ++
     (if hasKey config "gateway_id" then cleanupStep throws .gateway else []) ++
     (if hasKey config "provider_arn" then cleanupStep throws .oauthProvider else []) ++
     (if hasKey config "identity_arn" then cleanupStep throws .workloadIdentity else []) ++
     (if hasKey config "user_pool_id" then cleanupStep throws .cognito else []) ++
     (if hasKey config "role_arn" then cleanupStep throws .iamRole else []))

/-- The resource kinds whose deletion `cleanup` attempts, in order. -/
def cleanupAttempts (config : List (String × String))
    (throws : ResourceKind → Bool) : List ResourceKind :=
  match cleanup config throws with
  | .ok log => log.map Prod.fst
  | .error _ => []

/-- The creation order in `main`, lines 339-344: IAM role, Cognito
resources, workload identity, OAuth provider, gateway, gateway target. -/
def mainCreationOrder : List ResourceKind :=
  [.iamRole, .cognito, .workloadIdentity, .oauthProvider, .gateway, .gatewayTarget]

/-- The keys `main` saves to `config.json`, lines 347-359. -/
def mainSavedKeys : List String :=
  ["gateway_id", "gateway_url", "identity_arn", "user_pool_id",
   "cognito_client_id", "cognito_discovery_url", "cognito_domain_prefix",
   "provider_arn", "oauth_callback_url", "role_arn", "target_id"]

/-- Outcome of `construct.py`'s `main`. -/
inductive MainOutcome where
  | cleanupDone
  | noConfig
  | exitStatus (code : Nat)
  | created (order : List ResourceKind) (savedKeys : List String)
deriving DecidableEq

/-- `main` from `construct.py`, lines 313-368: `--cleanup` branch, the
credential check that exits with status 1, and otherwise the creation
sequence followed by saving `config.json`. -/
def construct_main (argv : List String)
    (youtubeClientId youtubeClientSecret : Option String)
    (configFileExists : Bool) : MainOutcome :=
  if argv.contains "--cleanup" then
    if ¬ configFileExists then .noConfig
    else .cleanupDone
  else if pyFalsyOptStr youtubeClientId || pyFalsyOptStr youtubeClientSecret then
    .exitStatus 1
  else
    .created mainCreationOrder mainSavedKeys

/-- C5: for a config holding every saved key, `cleanup` attempts the six
deletions in exactly the reverse of `main`'s creation order. -/
theorem cleanup_reverses_creation_order (config : List (String × String))
    (throws : ResourceKind → Bool)
    (h : ∀ k ∈ mainSavedKeys, hasKey config k = true) :
    cleanupAttempts config throws = mainCreationOrder.reverse := by
  have h1 := h "gateway_id" (by simp [mainSavedKeys])
  have h2 := h "target_id" (by simp [mainSavedKeys])
  have h3 := h "provider_arn" (by simp [mainSavedKeys])
  have h4 := h "identity_arn" (by simp [mainSavedKeys])
  have h5 := h "user_pool_id" (by simp [mainSavedKeys])
  have h6 := h "role_arn" (by simp [mainSavedKeys])
  simp [cleanupAttempts, cleanup, cleanupStep, h1, h2, h3, h4, h5, h6,
    mainCreationOrder, apply_ite (List.map Prod.fst)]

/-- Witness for C5 at a concrete full config and a failing gateway delete. -/
theorem cleanup_reverses_creation_order_witness :
    (∀ k ∈ mainSavedKeys, hasKey (mainSavedKeys.map (fun k => (k, "v"))) k = true) ∧
    cleanupAttempts (mainSavedKeys.map (fun k => (k, "v")))
      (fun k => k = ResourceKind.gateway) = mainCreationOrder.reverse :=
  ⟨by decide, cleanup_reverses_creation_order _ _ (by decide)⟩

/-- Every attempted deletion keeps the kind it attempted, whether or not the
underlying delete call raised. -/
theorem cleanupStep_fst (throws : ResourceKind → Bool) (k : ResourceKind) :
    (cleanupStep throws k).map Prod.fst = [k] := by
  unfold cleanupStep
  split <;> rfl

/-- C6: `cleanup` is best-effort — it never lets an exception escape, the
sequence of attempted deletions does not depend on which delete calls raise,
and a kind is attempted exactly when the config keys guarding it are
present. -/
theorem cleanup_best_effort (config : List (String × String))
    (throws : ResourceKind → Bool) :
    (cleanup config throws).isOk = true ∧
    cleanupAttempts config throws = cleanupAttempts config (fun _ => false) ∧
    cleanupAttempts config throws =
      ((if hasKey config "gateway_id" && hasKey config "target_id" then
          [ResourceKind.gatewayTarget] else []) ++
       (if hasKey config "gateway_id" then [ResourceKind.gateway] else []) ++
       (if hasKey config "provider_arn" then [ResourceKind.oauthProvider] else []) ++
       (if hasKey config "identity_arn" then [ResourceKind.workloadIdentity] else []) ++
       (if hasKey config "user_pool_id" then [ResourceKind.cognito] else []) ++
       (if hasKey config "role_arn" then [ResourceKind.iamRole] else [])) := by
  refine ⟨rfl, ?_, ?_⟩ <;>
    simp [cleanupAttempts, cleanup, List.map_append,
      apply_ite (List.map (Prod.fst (α := ResourceKind) (β := Bool))), cleanupStep_fst]

/-- `load_config` from `say_hello_to_authorized_customer/config.py`: the
required environment variables in iteration order with their config keys. -/
def requiredVars : List (String × String) :=
  [("AWS_REGION", "region"), ("GOOGLE_CLIENT_ID", "google_client_id"),
   ("GOOGLE_CLIENT_SECRET", "google_client_secret"), ("CALLBACK_URL", "callback_url")]

/-- The loop body of `load_config`: check each variable in order, raising
`ValueError` naming the first falsy one. -/
def loadConfigAux (env : String → Option String) :
    List (String × String) → List (String × String) →
    Except String (List (String × String))
  | [], acc => .ok acc
  | (envVar, configKey) :: rest, acc =>
    match env envVar with
    | none => .error ("Missing required environment variable: " ++ envVar)
    | some v =>
      if v = "" then .error ("Missing required environment variable: " ++ envVar)
      else loadConfigAux env rest (acc ++ [(configKey, v)])

/-- `load_config` from `config.py`, lines 6-22. -/
def load_config (env : String → Option String) :
    Except String (List (String × String)) :=
  loadConfigAux env requiredVars []

/-- The first required environment variable that is unset or empty. -/
def firstMissingVar (env : String → Option String) : Option String :=
  (requiredVars.find? (fun p => pyFalsyOptStr (env p.1))).map Prod.fst

/-- A non-falsy `os.getenv` result is a set, non-empty variable. -/
theorem notFalsy_of_false {o : Option String} (h : pyFalsyOptStr o = false) :
    ∃ v, o = some v ∧ v ≠ "" := by
  cases o with
  | none => simp [pyFalsyOptStr] at h
  | some v =>
    simp only [pyFalsyOptStr, decide_eq_false_iff_not] at h
    exact ⟨v, rfl, h⟩

/-- `load_config`'s loop raises a `ValueError` naming the first variable in
the list whose environment value is unset or empty. -/
theorem loadConfigAux_error (env : String → Option String) :
    ∀ (l : List (String × String)) (acc : List (String × String)) (v : String),
      (l.find? (fun p => pyFalsyOptStr (env p.1))).map Prod.fst = some v →
      loadConfigAux env l acc =
        .error ("Missing required environment variable: " ++ v) := by
  intro l
  induction l with
  | nil => intro acc v hv; simp [List.find?] at hv
  | cons hd tl ih =>
    intro acc v hv
    obtain ⟨ev, ck⟩ := hd
    cases hf : pyFalsyOptStr (env ev) with
    | true =>
      have hstep : List.find? (fun p => pyFalsyOptStr (env p.1)) ((ev, ck) :: tl) =
          some (ev, ck) := List.find?_cons_of_pos tl hf
      rw [hstep] at hv
      simp at hv
      have hcase : env ev = none ∨ ∃ w, env ev = some w ∧ w = "" := by
        rcases henv : env ev with _ | w
        · exact Or.inl rfl
        · rw [henv] at hf
          exact Or.inr ⟨w, rfl, by simpa [pyFalsyOptStr] using hf⟩
      rcases hcase with henv | ⟨w, henv, hw⟩
      · simp [loadConfigAux, henv, ← hv]
      · simp [loadConfigAux, henv, hw, ← hv]
    | false =>
      have hstep : List.find? (fun p => pyFalsyOptStr (env p.1)) ((ev, ck) :: tl) =
          List.find? (fun p => pyFalsyOptStr (env p.1)) tl :=
        List.find?_cons_of_neg tl (by simpa using hf)
      rw [hstep] at hv
      obtain ⟨w, henv, hw⟩ := notFalsy_of_false hf
      simp only [loadConfigAux, henv, hw, if_neg]
      exact ih _ _ hv

/-- C7: `main` exits with status 1 when a YouTube credential is unset or
empty (and `--cleanup` is not given) before creating anything, and
`load_config` raises a `ValueError` naming the first missing variable,
returning the config exactly when all four variables are set. -/
theorem construct_fails_fast_on_missing_credentials :
    (∀ (argv : List String) (cid csec : Option String) (cfgExists : Bool),
      argv.contains "--cleanup" = false →
      (pyFalsyOptStr cid || pyFalsyOptStr csec) = true →
      construct_main argv cid csec cfgExists = .exitStatus 1) ∧
    (∀ env v, firstMissingVar env = some v →
      load_config env = .error ("Missing required environment variable: " ++ v)) ∧
    (∀ env, firstMissingVar env = none →
      ∃ r gi gs cb, env "AWS_REGION" = some r ∧ env "GOOGLE_CLIENT_ID" = some gi ∧
        env "GOOGLE_CLIENT_SECRET" = some gs ∧ env "CALLBACK_URL" = some cb ∧
        load_config env = .ok [("region", r), ("google_client_id", gi),
          ("google_client_secret", gs), ("callback_url", cb)]) := by
  refine ⟨?_, ?_, ?_⟩
  · intro argv cid csec cfgExists hclean hfalsy
    simp only [construct_main]
    rw [hclean, hfalsy]
    simp
  · intro env v hv
    exact loadConfigAux_error env requiredVars [] v hv
  · intro env hnone
    have hfind : requiredVars.find? (fun p => pyFalsyOptStr (env p.1)) = none := by
      rcases hf : requiredVars.find? (fun p => pyFalsyOptStr (env p.1)) with _ | p
      · exact hf
      · rw [firstMissingVar, hf] at hnone
        simp at hnone
    rw [List.find?_eq_none] at hfind
    obtain ⟨r, h1, hr⟩ := notFalsy_of_false (Bool.not_eq_true _ ▸
      hfind ("AWS_REGION", "region") (by simp [requiredVars]))
    obtain ⟨gi, h2, hgi⟩ := notFalsy_of_false (Bool.not_eq_true _ ▸
      hfind ("GOOGLE_CLIENT_ID", "google_client_id") (by simp [requiredVars]))
    obtain ⟨gs, h3, hgs⟩ := notFalsy_of_false (Bool.not_eq_true _ ▸
      hfind ("GOOGLE_CLIENT_SECRET", "google_client_secret") (by simp [requiredVars]))
    obtain ⟨cb, h4, hcb⟩ := notFalsy_of_false (Bool.not_eq_true _ ▸
      hfind ("CALLBACK_URL", "callback_url") (by simp [requiredVars]))
    exact ⟨r, gi, gs, cb, h1, h2, h3, h4, by
      simp [load_config, requiredVars, loadConfigAux, h1, h2, h3, h4,
        hr, hgi, hgs, hcb]⟩

/-- The environment used by the C7 witness, with all four variables set. -/
def witnessEnvFull : String → Option String := fun v =>
  if v = "AWS_REGION" then some "us-east-1"
  else if v = "GOOGLE_CLIENT_ID" then some "id"
  else if v = "GOOGLE_CLIENT_SECRET" then some "sec"
  else if v = "CALLBACK_URL" then some "http://localhost" else none

/-- Witness for C7 at concrete arguments: an empty client id makes `main`
exit 1; an environment missing `GOOGLE_CLIENT_ID` makes `load_config` raise
naming it; a full environment loads the four keys. -/
theorem construct_fails_fast_on_missing_credentials_witness :
    construct_main ["construct.py"] (some "") (some "secret") true = .exitStatus 1 ∧
    load_config (fun v => if v = "AWS_REGION" then some "us-east-1" else none) =
      .error ("Missing required environment variable: " ++ "GOOGLE_CLIENT_ID") ∧
    (∃ r gi gs cb, witnessEnvFull "AWS_REGION" = some r ∧
      witnessEnvFull "GOOGLE_CLIENT_ID" = some gi ∧
      witnessEnvFull "GOOGLE_CLIENT_SECRET" = some gs ∧
      witnessEnvFull "CALLBACK_URL" = some cb ∧
      load_config witnessEnvFull = .ok [("region", r), ("google_client_id", gi),
        ("google_client_secret", gs), ("callback_url", cb)]) :=
  ⟨construct_fails_fast_on_missing_credentials.1 _ _ _ _ (by decide) (by decide),
   construct_fails_fast_on_missing_credentials.2.1 _ _ (by decide),
   construct_fails_fast_on_missing_credentials.2.2 witnessEnvFull (by decide)⟩

/-! ## JSON values

Parsed JSON documents (dict/list/str/number/bool/null) as shuttled between
the scripts and the gateway. -/

/-- A parsed JSON value (Python dicts as association lists in insertion
order). -/
inductive JVal where
  | null
  | b (v : Bool)
  | n (v : Int)
  | s (v : Str)
  | arr (items : List JVal)
  | obj (fields : List (Str × JVal))

/-- First match of a key in a JSON object's fields (Python dict lookup). -/
def jfind (fields : List (Str × JVal)) (k : Str) : Option JVal :=
  (fields.find? (fun p => p.1 == k)).map Prod.snd

/-- Python `d[k]` on a JSON value: `KeyError` when absent, `TypeError` when
not a dict. -/
def pyItem (v : JVal) (k : Str) : Except Str JVal :=
  match v with
  | .obj fs =>
    match jfind fs k with
    | some x => .ok x
    | none => .error (str "KeyError")
  | _ => .error (str "TypeError")

/-- Python `xs[i]` on a JSON value: `IndexError` past the end, `TypeError`
when not a list. -/
def pyIndex (v : JVal) (i : Nat) : Except Str JVal :=
  match v with
  | .arr xs =>
    match xs[i]? with
    | some x => .ok x
    | none => .error (str "IndexError")
  | _ => .error (str "TypeError")

/-- Python `json.loads` applied to a value that must be a string
(`TypeError` otherwise). -/
def pyLoadsStr (json_loads : Str → Except Str JVal) (v : JVal) :
    Except Str JVal :=
  match v with
  | .s s => json_loads s
  | _ => .error (str "TypeError")

/-! ## Gateway JSON-RPC responses and the OAuth elicitation flow

`oauth-gateway-from-agent/server.py`, `oauth_gateway_from_browser/agent.py`
and `mcp_server_with_oauth_gateway/server.py` all inspect the parsed
JSON-RPC response of a `tools/call` request.  The HTTP layer (and its
translation of non-200 statuses into `{"error": {"code": -1, ...}}` dicts)
is abstracted into an oracle `responses : Nat → RpcResponse` giving the
parsed response of the n-th `tools/call` request of one invocation.  A
response either lacks the `"error"` key (`ok`, carrying the `"result"`
member) or carries a JSON-RPC error object; `elicitations = none` models an
error without `data.elicitations`, `some []` an empty elicitation list. -/

/-- One entry of `error.data.elicitations`. -/
structure Elicitation where
  url : Str
  elicitationId : Str
deriving DecidableEq

/-- A JSON-RPC error object as these scripts consume it. -/
structure RpcError where
  code : Int
  message : Str
  elicitations : Option (List Elicitation)
deriving DecidableEq

/-- A parsed gateway response. -/
inductive RpcResponse where
  | ok (result : JVal)
  | err (e : RpcError)

/-- The query component of a URL as `urllib.parse.urlparse` extracts it:
everything after the first `'?'`, with the fragment (after the first `'#'`)
split off first. -/
def urlQuery (url : Str) : Str :=
  let noFrag := (pySplit '#' url).headD []
  match pySplit '?' noFrag with
  | [] => []
  | [_] => []
  | _ :: rest => List.intercalate ['?'] rest

/-- `parse_qs(query).get(name, [""])[0]`: the first non-blank value of the
query parameter `name`, or `""`.  Fields without `'='` or with a blank
value are skipped (`keep_blank_values=False`); `'+'` decodes to a space;
percent-escapes are not modelled (the session ids the gateway issues
contain none). -/
def parse_qs_first (query : Str) (name : Str) : Str :=
  let plusToSpace : Str → Str := List.map (fun c => if c = '+' then ' ' else c)
  let pairs := (pySplit '&' query).filterMap (fun f =>
    match pySplit '=' f with
    | [] => none
    | [_] => none
    | n :: rest =>
      let v := List.intercalate ['='] rest
      if v = [] then none else some (plusToSpace n, plusToSpace v))
  ((pairs.filter (fun p => p.1 == name)).head?.map Prod.snd).getD []

/-- One DynamoDB `get_item` result in `poll_completion`: `none` when the
response has no `"Item"`, otherwise the item's optional `status` and
`error` attributes. -/
structure PollItem where
  status : Option Str
  error : Option Str
deriving DecidableEq

/-- The polling loop of `poll_completion` (`server.py`, lines 54-69), with
the wall-clock timeout modelled as fuel: each iteration reads the next
`get_item` result and sleeps; exhausted fuel is the timeout. -/
def poll_completion_aux (items : Nat → Option PollItem) :
    Nat → Nat → Str
  | 0, _ => str "TIMEOUT"
  | fuel + 1, i =>
    match items i with
    | some item =>
      let status := item.status.getD (str "PENDING")
      if status = str "COMPLETE" then str "COMPLETE"
      else if status = str "FAILED" then
        str "FAILED: " ++ item.error.getD (str "Unknown error")
      else poll_completion_aux items fuel (i + 1)
    | none => poll_completion_aux items fuel (i + 1)

/-- `poll_completion` from `oauth-gateway-from-agent/server.py`. -/
def poll_completion (items : Nat → Option PollItem) (fuel : Nat) : Str :=
  poll_completion_aux items fuel 0

/-- The message part of `handle_oauth_flow`'s `(success, message)` result,
one constructor per `return` statement. -/
inductive OAuthMsg where
  | alreadyAuthorized
  | errOther (e : RpcError)
  | noElicitationUrl
  | noRequestUri
  | authorizationComplete
  | authorizationFailed (status : Str)
deriving DecidableEq

/-- The effect of one `handle_oauth_flow` run: its `(success, message)`
result, the number of `tools/call` requests it issued through
`call_gateway`, and the sessions it wrote with `store_session`. -/
structure FlowOut where
  success : Bool
  msg : OAuthMsg
  calls : Nat
  stored : List (Str × Str)
deriving DecidableEq

/-- `handle_oauth_flow` from `oauth-gateway-from-agent/server.py`, lines
93-131: call the gateway once, inspect a `-32042` error, take
`elicitations[0]["url"]`, read the session id from the URL's `request_uri`
query parameter, store the session and poll for completion. -/
def handle_oauth_flow (responses : Nat → RpcResponse)
    (items : Nat → Option PollItem) (fuel : Nat) (token : Str) : FlowOut :=
  match responses 0 with
  | .ok _ => ⟨true, .alreadyAuthorized, 1, []⟩
  | .err e =>
    if e.code ≠ -32042 then ⟨false, .errOther e, 1, []⟩
    else
      match e.elicitations.getD [] with
      | [] => ⟨false, .noElicitationUrl, 1, []⟩
      | el :: _ =>
        let session_id := parse_qs_first (urlQuery el.url) (str "request_uri")
        if session_id = [] then ⟨false, .noRequestUri, 1, []⟩
        else
          let status := poll_completion items fuel
          if status = str "COMPLETE" then
            ⟨true, .authorizationComplete, 1, [(session_id, token)]⟩
          else ⟨false, .authorizationFailed status, 1, [(session_id, token)]⟩

/-- The JSON string `list_youtube_channels` returns, by case. -/
inductive LycOut where
  | notAuthenticated
  | errorMsg (m : OAuthMsg)
  | result (r : RpcResponse)

/-- One `list_youtube_channels` run: its result, the total number of
`tools/call` requests issued, and the sessions stored. -/
structure LycRun where
  out : LycOut
  calls : Nat
  stored : List (Str × Str)

/-- `list_youtube_channels` from `oauth-gateway-from-agent/server.py`,
lines 134-146: run the OAuth flow, and on success retry the original
gateway call once (the second `tools/call` request). -/
def list_youtube_channels (responses : Nat → RpcResponse)
    (items : Nat → Option PollItem) (fuel : Nat) (user_token : Str) : LycRun :=
  if user_token = [] then ⟨.notAuthenticated, 0, []⟩
  else
    let f := handle_oauth_flow responses items fuel user_token
    if ¬ f.success then ⟨.errorMsg f.msg, f.calls, f.stored⟩
    else ⟨.result (responses 1), f.calls + 1, f.stored⟩

/-- `handle_oauth_flow` issues exactly one `tools/call` request. -/
theorem handle_oauth_flow_calls (responses : Nat → RpcResponse)
    (items : Nat → Option PollItem) (fuel : Nat) (token : Str) :
    (handle_oauth_flow responses items fuel token).calls = 1 := by
  unfold handle_oauth_flow
  rcases responses 0 with _ | e
  · rfl
  · by_cases hc : e.code ≠ -32042
    · simp [hc]
    · rcases hl : e.elicitations.getD [] with _ | ⟨el, rest⟩
      · simp [hc, hl]
      · simp only [hl, if_neg hc]
        split
        · rfl
        · split <;> rfl

/-- C1: at most two `tools/call` requests are ever issued per invocation,
and on the elicitation path (first response a `-32042` error with a
non-empty elicitation list whose URL carries a `request_uri` parameter)
with out-of-band completion (`poll_completion` returns `"COMPLETE"`),
`list_youtube_channels` stores the session under the id extracted from the
elicitation URL and retries exactly once, returning the second response. -/
theorem oauth_elicitation_one_shot :
    (∀ (responses : Nat → RpcResponse) (items : Nat → Option PollItem)
        (fuel : Nat) (token : Str),
      (list_youtube_channels responses items fuel token).calls ≤ 2) ∧
    (∀ (responses : Nat → RpcResponse) (items : Nat → Option PollItem)
        (fuel : Nat) (token : Str) (e : RpcError) (el : Elicitation)
        (rest : List Elicitation),
      token ≠ [] →
      responses 0 = .err e →
      e.code = -32042 →
      e.elicitations = some (el :: rest) →
      parse_qs_first (urlQuery el.url) (str "request_uri") ≠ [] →
      poll_completion items fuel = str "COMPLETE" →
      list_youtube_channels responses items fuel token =
        ⟨.result (responses 1), 2,
          [(parse_qs_first (urlQuery el.url) (str "request_uri"), token)]⟩) := by
  constructor
  · intro responses items fuel token
    have hc := handle_oauth_flow_calls responses items fuel token
    simp only [list_youtube_channels]
    split
    · simp
    · split <;> simp [hc]
  · intro responses items fuel token e el rest htok h0 hcode helic hsess hpoll
    have hflow : handle_oauth_flow responses items fuel token =
        ⟨true, .authorizationComplete, 1,
          [(parse_qs_first (urlQuery el.url) (str "request_uri"), token)]⟩ := by
      unfold handle_oauth_flow
      rw [h0]
      simp [hcode, helic, hsess, hpoll]
    unfold list_youtube_channels
    simp [htok, hflow]

/-- Witness for C1: a concrete elicitation round trip through session id
`"sess-1"`. -/
theorem oauth_elicitation_one_shot_witness :
    ((fun n => if n = 0 then RpcResponse.err
        ⟨-32042, str "authorization required",
          some [⟨str "https://gw/oauth/authorize?request_uri=sess-1", str "e1"⟩]⟩
      else RpcResponse.ok (JVal.s (str "channels"))) 0 = RpcResponse.err
        ⟨-32042, str "authorization required",
          some [⟨str "https://gw/oauth/authorize?request_uri=sess-1", str "e1"⟩]⟩) ∧
    poll_completion (fun _ => some ⟨some (str "COMPLETE"), none⟩) 3 = str "COMPLETE" ∧
    list_youtube_channels
      (fun n => if n = 0 then RpcResponse.err
          ⟨-32042, str "authorization required",
            some [⟨str "https://gw/oauth/authorize?request_uri=sess-1", str "e1"⟩]⟩
        else RpcResponse.ok (JVal.s (str "channels")))
      (fun _ => some ⟨some (str "COMPLETE"), none⟩) 3 (str "tok") =
      ⟨.result (RpcResponse.ok (JVal.s (str "channels"))), 2, [(str "sess-1", str "tok")]⟩ := by
  refine ⟨rfl, rfl, ?_⟩
  have h := oauth_elicitation_one_shot.2
    (fun n => if n = 0 then RpcResponse.err
        ⟨-32042, str "authorization required",
          some [⟨str "https://gw/oauth/authorize?request_uri=sess-1", str "e1"⟩]⟩
      else RpcResponse.ok (JVal.s (str "channels")))
    (fun _ => some ⟨some (str "COMPLETE"), none⟩) 3 (str "tok")
    ⟨-32042, str "authorization required",
      some [⟨str "https://gw/oauth/authorize?request_uri=sess-1", str "e1"⟩]⟩
    ⟨str "https://gw/oauth/authorize?request_uri=sess-1", str "e1"⟩ []
    (by decide) rfl rfl rfl (by decide) (by decide)
  have hsess : parse_qs_first
      (urlQuery (str "https://gw/oauth/authorize?request_uri=sess-1"))
      (str "request_uri") = str "sess-1" := by decide
  simpa only [hsess] using h

/-! ## `oauth_gateway_from_browser/agent.py`: `greet_user`

`greet_user` inspects the first response's error: on a `-32042` code with
the `elicitations` key present it indexes `elicitations[0]` — an
`IndexError` when the list is empty — and otherwise returns an error dict.
On success it issues the second call and formats a greeting from the two
JSON payloads. -/

/-- The dict `greet_user` returns, one constructor per `return` statement:
`oauthRequired` is the `{"status": "oauth_required", ...}` dict,
`errorOut` the `{"status": "error", "message": ..., "details": ...}` dict
(`details` carries the stringified error object, absent for the second
call's error), `success` the greeting built from the two titles. -/
inductive GreetOut where
  | oauthRequired (authUrl elicitationId : Str)
  | errorOut (message : Str) (details : Option RpcError)
  | success (channelTitle subscriptionTitle : JVal)

/-- `json.loads(r["result"]["content"][0]["text"])` for a response payload:
the chain of item accesses of `greet_user`'s success path, each of which
can raise. -/
def parseContentText (json_loads : Str → Except Str JVal) (result : JVal) :
    Except Str JVal := do
  let content ← pyItem result (str "content")
  let first ← pyIndex content 0
  let text ← pyItem first (str "text")
  pyLoadsStr json_loads text

/-- `data["items"][0]["snippet"]["title"]` from a parsed payload. -/
def firstItemTitle (data : JVal) : Except Str JVal := do
  let items ← pyItem data (str "items")
  let first ← pyIndex items 0
  let snippet ← pyItem first (str "snippet")
  pyItem snippet (str "title")

/-- `greet_user` from `oauth_gateway_from_browser/agent.py`, lines 55-112.
The two `call_gateway_tool` invocations are the oracle's responses 0 and 1;
`json_loads` models `json.loads` on the content strings. -/
def greet_user (responses : Nat → RpcResponse)
    (json_loads : Str → Except Str JVal) : Except Str GreetOut :=
  match responses 0 with
  | .err e =>
    match e.elicitations with
    | some [] =>
      if e.code = -32042 then .error (str "IndexError")
      else .ok (.errorOut e.message (some e))
    | some (el :: _) =>
      if e.code = -32042 then .ok (.oauthRequired el.url el.elicitationId)
      else .ok (.errorOut e.message (some e))
    | none => .ok (.errorOut e.message (some e))
  | .ok channelResult =>
    match responses 1 with
    | .err e2 => .ok (.errorOut e2.message none)
    | .ok subsResult => do
      let channelData ← parseContentText json_loads channelResult
      let channelTitle ← firstItemTitle channelData
      let subsData ← parseContentText json_loads subsResult
      let subsTitle ← firstItemTitle subsData
      .ok (.success channelTitle subsTitle)

/-! ## `mcp_server_with_oauth_gateway/server.py`: `call_gateway_tool`

The HTTP POST and its non-200 handling are abstracted into the parsed
response; the bearer-token check and the `-32042` elicitation check are
translated from the source. -/

/-- The dict `call_gateway_tool` returns: the missing-token error dict, the
`{"oauth_required": True, ...}` dict, or the gateway response unchanged. -/
inductive CgtOut where
  | noBearer
  | oauthRequired (authUrl elicitationId : Str)
  | passthrough (r : RpcResponse)

/-- `call_gateway_tool` from `mcp_server_with_oauth_gateway/server.py`,
lines 18-77. -/
def call_gateway_tool (bearer_token : Option Str) (response : RpcResponse) :
    CgtOut :=
  match bearer_token with
  | none => .noBearer
  | some t =>
    if t = [] then .noBearer
    else
      match response with
      | .err e =>
        if e.code = -32042 then
          match e.elicitations.getD [] with
          | el :: _ => .oauthRequired el.url el.elicitationId
          | [] => .passthrough (.err e)
        else .passthrough (.err e)
      | .ok r => .passthrough (.ok r)

/-- The response oracle of the C2 counterexample: every call answers with a
`-32042` error whose `data.elicitations` key is present but empty. -/
def c2Responses : Nat → RpcResponse :=
  fun _ => .err ⟨-32042, str "authorization required", some []⟩

/-- C2 counterexample: on a gateway response whose error has the sentinel
code `-32042` but an empty `elicitations` list, `greet_user` does not
return the error to the caller — it raises an uncaught `IndexError` at
`error_data["elicitations"][0]`. -/
theorem greet_user_crashes_on_empty_elicitations :
    greet_user c2Responses (fun _ => .error (str "ValueError")) =
      .error (str "IndexError") := rfl

/-- C2 (amended): for an error response whose code is not `-32042`, or
whose elicitation list is missing or empty, `handle_oauth_flow` and
`call_gateway_tool` return the error without an authorization URL, without
storing a session and without a second call, and `greet_user` does so too
provided the `elicitations` key is absent when the code is `-32042` (with
the key present and empty it raises `IndexError` instead). -/
theorem non_sentinel_error_returned_unchanged (e : RpcError)
    (hcond : e.code ≠ -32042 ∨ e.elicitations.getD [] = []) :
    (∀ (responses : Nat → RpcResponse) (items : Nat → Option PollItem)
        (fuel : Nat) (token : Str), responses 0 = .err e →
      handle_oauth_flow responses items fuel token =
        ⟨false, if e.code ≠ -32042 then .errOther e else .noElicitationUrl, 1, []⟩) ∧
    (∀ bearer : Str, bearer ≠ [] →
      call_gateway_tool (some bearer) (.err e) = .passthrough (.err e)) ∧
    (∀ (responses : Nat → RpcResponse) (json_loads : Str → Except Str JVal),
      responses 0 = .err e →
      (e.code ≠ -32042 ∨ e.elicitations = none) →
      greet_user responses json_loads = .ok (.errorOut e.message (some e))) := by
  refine ⟨?_, ?_, ?_⟩
  · intro responses items fuel token h0
    unfold handle_oauth_flow
    rw [h0]
    rcases hcond with hc | hl
    · simp [hc]
    · by_cases hc : e.code ≠ -32042
      · simp [hc]
      · simp [hc, hl]
  · intro bearer hb
    unfold call_gateway_tool
    rcases hcond with hc | hl
    · simp [hb, hc]
    · by_cases hc : e.code = -32042
      · simp [hb, hc, hl]
      · simp [hb, hc]
  · intro responses json_loads h0 hcond2
    rcases hel : e.elicitations with _ | ⟨_ | ⟨el, rest⟩⟩
    · simp [greet_user, h0, hel]
    · rcases hcond2 with hc | hn
      · simp [greet_user, h0, hel, hc]
      · rw [hn] at hel
        exact absurd hel (by simp)
    · rcases hcond2 with hc | hn
      · simp [greet_user, h0, hel, hc]
      · rw [hn] at hel
        exact absurd hel (by simp)

/-- The non-sentinel error of the C2 witness. -/
def c2WitnessError : RpcError := ⟨-32000, str "internal failure", none⟩

/-- Witness for C2 (amended) at the error code `-32000`: all three handlers
return the error unchanged, with one gateway call and nothing stored. -/
theorem non_sentinel_error_returned_unchanged_witness :
    handle_oauth_flow (fun _ => .err c2WitnessError) (fun _ => none) 3 (str "tok") =
      ⟨false, .errOther c2WitnessError, 1, []⟩ ∧
    call_gateway_tool (some (str "tok")) (.err c2WitnessError) =
      .passthrough (.err c2WitnessError) ∧
    greet_user (fun _ => .err c2WitnessError) (fun _ => .error (str "ValueError")) =
      .ok (.errorOut (str "internal failure") (some c2WitnessError)) := by
  have h := non_sentinel_error_returned_unchanged c2WitnessError (Or.inl (by decide))
  refine ⟨?_, h.2.1 (str "tok") (by decide), ?_⟩
  · have h1 := h.1 (fun _ => .err c2WitnessError) (fun _ => none) 3 (str "tok") rfl
    simpa [c2WitnessError] using h1
  · have h3 := h.2.2 (fun _ => .err c2WitnessError)
      (fun _ => .error (str "ValueError")) rfl (Or.inl (by decide))
    simpa [c2WitnessError] using h3

/-! ## `mcp_server_with_oauth_gateway/interceptor.py`: the Lambda handler

The handler reads the inbound JWT from the request headers, determines the
user identity from the decoded claims, asks the Token Vault for a stored
OAuth token and answers with one of three response shapes.  The boto3
`get_resource_oauth2_token` calls are an oracle `vault : Nat → VaultOutcome`
(n-th call of one handler run); the `try: decode_jwt_payload(...)` outcome,
exceptions from `json.loads`/`base64` included, is the parameter
`decodeOutcome`.  `extract_google_user_id` and the response builders are
translated from the source; an `Except.error` result is an uncaught Python
exception escaping the handler. -/

/-- Python truthiness of a JSON value. -/
def pyFalsyJ : JVal → Bool
  | .null => true
  | .b v => !v
  | .n v => v == 0
  | .s s => s.isEmpty
  | .arr xs => xs.isEmpty
  | .obj fs => fs.isEmpty

/-- Python `d.get(k, dflt)`: `AttributeError` when `d` is not a dict. -/
def pyGetJ (v : JVal) (k : Str) (dflt : JVal) : Except Str JVal :=
  match v with
  | .obj fs => .ok ((jfind fs k).getD dflt)
  | _ => .error (str "AttributeError")

/-- The `for identity in identities:` loop of `extract_google_user_id`:
return `identity.get("userId")` of the first identity whose `providerName`
equals `"Google"`, `None` when none matches; a non-dict element raises
`AttributeError` at `identity.get`. -/
def findGoogleIdentity : List JVal → Except Str JVal
  | [] => .ok .null
  | identity :: rest =>
    match pyGetJ identity (str "providerName") .null with
    | .error e => .error e
    | .ok pn =>
      match pn with
      | .s g =>
        if g = str "Google" then pyGetJ identity (str "userId") .null
        else findGoogleIdentity rest
      | _ => findGoogleIdentity rest

/-- `extract_google_user_id` from `interceptor.py`, lines 23-32, with
Python's iteration semantics: iterating a list visits its elements, an
empty dict or string yields nothing, a non-empty dict yields key strings
(whose `.get` raises `AttributeError`), and a number, bool or `None` raises
`TypeError`. -/
def extract_google_user_id (json_loads : Str → Except Str JVal)
    (claims : JVal) : Except Str JVal :=
  match pyGetJ claims (str "identities") .null with
  | .error e => .error e
  | .ok identities_str =>
    if pyFalsyJ identities_str then .ok .null
    else
      match (match identities_str with
             | .s s => json_loads s
             | v => .ok v) with
      | .error e => .error e
      | .ok identities =>
        match identities with
        | .arr items => findGoogleIdentity items
        | .obj [] => .ok .null
        | .s [] => .ok .null
        | .obj (_ :: _) => .error (str "AttributeError")
        | .s (_ :: _) => .error (str "AttributeError")
        | _ => .error (str "TypeError")

/-- One `get_resource_oauth2_token` call outcome: a response dict (its
`accessToken` and `authorizationUrl` members), `ResourceNotFoundException`,
or any other exception. -/
inductive VaultOutcome where
  | success (accessToken : Option Str) (authorizationUrl : Option Str)
  | resourceNotFound
  | otherError (msg : Str)

/-- The interceptor's input event: `mcp.gatewayRequest.headers` and
`mcp.gatewayRequest.body` (missing parts behave as empty, matching the
chain of `.get(..., {})` defaults). -/
structure PyEvent where
  requestHeaders : List (Str × Str)
  requestBody : JVal

/-- `headers.get(k, dflt)` on the string-valued header dict. -/
def headersGet (hs : List (Str × Str)) (k : Str) (dflt : Str) : Str :=
  ((hs.find? (fun p => p.1 == k)).map Prod.snd).getD dflt

/-- `headers.get("Authorization", headers.get("authorization", ""))`. -/
def authHeaderOf (event : PyEvent) : Str :=
  headersGet event.requestHeaders (str "Authorization")
    (headersGet event.requestHeaders (str "authorization") [])

/-- `_inject_token_response` from `interceptor.py`, lines 93-105. -/
def inject_token_response (event : PyEvent) (access_token : Str) : JVal :=
  .obj [(str "interceptorOutputVersion", .s (str "1.0")),
        (str "mcp", .obj [(str "transformedGatewayRequest", .obj
          [(str "headers", .obj
             [(str "Authorization", .s (str "Bearer " ++ access_token))]),
           (str "body", event.requestBody)])])]

/-- `_auth_required_response` from `interceptor.py`, lines 108-123. -/
def auth_required_response (auth_url : Str) : JVal :=
  .obj [(str "interceptorOutputVersion", .s (str "1.0")),
        (str "mcp", .obj [(str "transformedGatewayResponse", .obj
          [(str "statusCode", .n 401),
           (str "headers", .obj [(str "Content-Type", .s (str "application/json"))]),
           (str "body", .obj
             [(str "error", .s (str "authorization_required")),
              (str "authorizationUrl", .s auth_url),
              (str "message", .s (str "User must authorize YouTube API access"))])])])]

/-- `_error_response` from `interceptor.py`, lines 126-137. -/
def error_response (status_code : Int) (message : Str) : JVal :=
  .obj [(str "interceptorOutputVersion", .s (str "1.0")),
        (str "mcp", .obj [(str "transformedGatewayResponse", .obj
          [(str "statusCode", .n status_code),
           (str "headers", .obj [(str "Content-Type", .s (str "application/json"))]),
           (str "body", .obj [(str "error", .s message)])])])]

/-- `handler` from `interceptor.py`, lines 35-90. -/
def handler (event : PyEvent) (decodeOutcome : Except Str JVal)
    (json_loads : Str → Except Str JVal) (vault : Nat → VaultOutcome) :
    Except Str JVal :=
  let auth_header := authHeaderOf event
  if ¬ (str "Bearer ").isPrefixOf auth_header then
    .ok (error_response 401 (str "Missing or invalid Authorization header"))
  else
    match decodeOutcome with
    | .error e => .ok (error_response 401 (str "Invalid JWT: " ++ e))
    | .ok claims =>
      match extract_google_user_id json_loads claims with
      | .error exc => .error exc
      | .ok extracted =>
        match (if pyFalsyJ extracted then pyGetJ claims (str "sub") JVal.null
               else .ok extracted) with
        | .error exc => .error exc
        | .ok google_user_id =>
          if pyFalsyJ google_user_id then
            .ok (error_response 401 (str "Cannot determine user identity"))
          else
            match vault 0 with
            | .success accessToken authorizationUrl =>
              match accessToken with
              | some t =>
                if ¬ t.isEmpty then .ok (inject_token_response event t)
                else .ok (auth_required_response (authorizationUrl.getD []))
              | none => .ok (auth_required_response (authorizationUrl.getD []))
            | .resourceNotFound =>
              match vault 1 with
              | .success _ authorizationUrl =>
                .ok (auth_required_response (authorizationUrl.getD []))
              | _ => .ok (error_response 500 (str "Failed to get authorization URL"))
            | .otherError m =>
              .ok (error_response 500 (str "Token retrieval failed: " ++ m))

/-- Lookup of a key in a JSON object value. -/
def objGet? (v : JVal) (k : Str) : Option JVal :=
  match v with
  | .obj fs => jfind fs k
  | _ => none

/-- Whether a JSON object value has a key. -/
def objHas (v : JVal) (k : Str) : Bool :=
  (objGet? v k).isSome

/-- The output shape claimed for the interceptor: version `"1.0"` and an
`mcp` member holding exactly one of the two transformed shapes. -/
def interceptorOutputOk (v : JVal) : Prop :=
  objGet? v (str "interceptorOutputVersion") = some (.s (str "1.0")) ∧
  ∃ m, objGet? v (str "mcp") = some m ∧
    ((objHas m (str "transformedGatewayRequest") = true ∧
      objHas m (str "transformedGatewayResponse") = false) ∨
     (objHas m (str "transformedGatewayRequest") = false ∧
      objHas m (str "transformedGatewayResponse") = true))

/-- `_inject_token_response` satisfies the output shape. -/
theorem interceptorOutputOk_inject (event : PyEvent) (t : Str) :
    interceptorOutputOk (inject_token_response event t) :=
  ⟨rfl, _, rfl, Or.inl ⟨rfl, rfl⟩⟩

/-- `_auth_required_response` satisfies the output shape. -/
theorem interceptorOutputOk_auth (u : Str) :
    interceptorOutputOk (auth_required_response u) :=
  ⟨rfl, _, rfl, Or.inr ⟨rfl, rfl⟩⟩

/-- `_error_response` satisfies the output shape. -/
theorem interceptorOutputOk_error (c : Int) (m : Str) :
    interceptorOutputOk (error_response c m) :=
  ⟨rfl, _, rfl, Or.inr ⟨rfl, rfl⟩⟩

/-- The event of the C9 counterexample: a well-formed Bearer header. -/
def c9Event : PyEvent := ⟨[(str "Authorization", str "Bearer abc")], .obj []⟩

/-- The decoded claims of the C9 counterexample: an `identities` claim that
is a non-empty JSON array holding a number. -/
def c9Claims : JVal := .obj [(str "identities", .arr [.n 5])]

/-- C9 counterexample: for the decoding outcome `{"identities": [5]}` the
handler raises an uncaught `AttributeError` inside
`extract_google_user_id` (which runs outside the `try` that guards
`decode_jwt_payload`), so it returns no dict at all. -/
theorem handler_crashes_on_malformed_identities :
    handler c9Event (.ok c9Claims) (fun _ => .error (str "ValueError"))
      (fun _ => .resourceNotFound) = .error (str "AttributeError") := rfl

/-- C9 (amended): whenever the handler returns (rather than letting an
exception from the identity extraction escape), the returned dict has
`interceptorOutputVersion` `"1.0"` and its `mcp` member holds exactly one
of `transformedGatewayRequest` or `transformedGatewayResponse` — for every
event, every JWT-decoding outcome and every pattern of Token-Vault
outcomes. -/
theorem handler_output_invariant (event : PyEvent)
    (decodeOutcome : Except Str JVal) (json_loads : Str → Except Str JVal)
    (vault : Nat → VaultOutcome) (out : JVal)
    (h : handler event decodeOutcome json_loads vault = .ok out) :
    interceptorOutputOk out := by
  have hite : ∀ (P : Prop) (inst : Decidable P) (a b : Except Str JVal),
      (∀ o, a = .ok o → interceptorOutputOk o) →
      (∀ o, b = .ok o → interceptorOutputOk o) →
      (if P then a else b) = .ok out → interceptorOutputOk out := by
    intro P inst a b ha hb hif
    split at hif
    · exact ha _ hif
    · exact hb _ hif
  unfold handler at h
  repeat' split at h
  all_goals
    refine hite _ _ _ _ (fun o ho => ?_) (fun o ho => ?_) h <;>
      first
        | (injection ho with ho; subst ho;
           first
             | exact interceptorOutputOk_error _ _
             | exact interceptorOutputOk_auth _
             | exact interceptorOutputOk_inject _ _)
        | simp at ho

/-- Witness for C9: a run that finds a stored token returns the invariant
output. -/
theorem handler_output_invariant_witness :
    handler c9Event (.ok (.obj [(str "sub", .s (str "user-1"))]))
      (fun _ => .error (str "ValueError"))
      (fun _ => .success (some (str "tok")) none) =
      .ok (inject_token_response c9Event (str "tok")) ∧
    interceptorOutputOk (inject_token_response c9Event (str "tok")) :=
  ⟨rfl, handler_output_invariant c9Event (.ok (.obj [(str "sub", .s (str "user-1"))]))
    (fun _ => .error (str "ValueError")) (fun _ => .success (some (str "tok")) none)
    (inject_token_response c9Event (str "tok")) rfl⟩

/-- `mcp.transformedGatewayRequest` of an interceptor output. -/
def transformedRequestOf (v : JVal) : Option JVal :=
  (objGet? v (str "mcp")).bind (fun m => objGet? m (str "transformedGatewayRequest"))

/-- C10: when the token vault yields a (non-empty) access token, the
handler returns `_inject_token_response`, whose
`transformedGatewayRequest` keeps the original `mcp.gatewayRequest.body`
and whose headers consist solely of the injected
`Authorization: Bearer <token>` header — every original request header is
dropped. -/
theorem token_injection_preserves_body_replaces_headers (event : PyEvent)
    (json_loads : Str → Except Str JVal) (vault : Nat → VaultOutcome)
    (claims extracted guid : JVal) (t : Str) (au : Option Str)
    (hpre : (str "Bearer ").isPrefixOf (authHeaderOf event) = true)
    (hext : extract_google_user_id json_loads claims = .ok extracted)
    (hgid : (if pyFalsyJ extracted then pyGetJ claims (str "sub") JVal.null
             else .ok extracted) = .ok guid)
    (hguid : pyFalsyJ guid = false)
    (hv : vault 0 = .success (some t) au)
    (ht : t.isEmpty = false) :
    handler event (.ok claims) json_loads vault =
      .ok (inject_token_response event t) ∧
    transformedRequestOf (inject_token_response event t) =
      some (.obj [(str "headers", .obj
          [(str "Authorization", .s (str "Bearer " ++ t))]),
        (str "body", event.requestBody)]) := by
  constructor
  · unfold handler
    simp only [hpre, hext, hgid, hv, hguid, ht]
    simp
  · rfl

/-- Witness for C10 at a concrete event carrying extra headers and a body:
both are visible in the input, only the body survives. -/
theorem token_injection_preserves_body_replaces_headers_witness :
    handler ⟨[(str "Authorization", str "Bearer abc"),
              (str "X-Trace", str "t-1")], .s (str "payload")⟩
      (.ok (.obj [(str "sub", .s (str "user-1"))]))
      (fun _ => .error (str "ValueError"))
      (fun _ => .success (some (str "tok")) none) =
      .ok (inject_token_response ⟨[(str "Authorization", str "Bearer abc"),
        (str "X-Trace", str "t-1")], .s (str "payload")⟩ (str "tok")) ∧
    transformedRequestOf (inject_token_response
        ⟨[(str "Authorization", str "Bearer abc"),
          (str "X-Trace", str "t-1")], .s (str "payload")⟩ (str "tok")) =
      some (.obj [(str "headers", .obj
          [(str "Authorization", .s (str "Bearer " ++ str "tok"))]),
        (str "body", .s (str "payload"))]) :=
  token_injection_preserves_body_replaces_headers
    ⟨[(str "Authorization", str "Bearer abc"), (str "X-Trace", str "t-1")],
      .s (str "payload")⟩
    (fun _ => .error (str "ValueError"))
    (fun _ => .success (some (str "tok")) none)
    (.obj [(str "sub", .s (str "user-1"))]) .null (.s (str "user-1"))
    (str "tok") none (by decide) rfl rfl (by decide) rfl (by decide)

/-! ## `config.json` round trip

`construct.py`'s `main` writes the flat string-valued config dict with
`json.dump(config, f, indent=2)` (default `ensure_ascii=True`) and
`load_config` reads it back with `json.load`.  `dumps` below is the exact
document `json.dump` produces for a flat string dict: `{}` for the empty
dict and otherwise one `"key": "value"` member per line indented by two
spaces, with CPython's string escaping (`\"`, `\\`, `\b`, `\t`, `\n`,
`\f`, `\r`, `\uXXXX` for all other characters outside `0x20`-`0x7e`,
surrogate pairs for astral characters).  `loads` is `json.load` restricted
to this flat string-object grammar, with its whitespace skipping, escape
decoding and surrogate-pair recombination; `none` models a raised
`JSONDecodeError`. -/

/-- Lower-case hex digit of a value below 16, as `"%04x" % n` prints it. -/
def hexDigitChar (n : Nat) : Char :=
  if n < 10 then Char.ofNat ('0'.toNat + n) else Char.ofNat ('a'.toNat + n - 10)

/-- The four hex digits of `"\\u%04x" % n`. -/
def hex4 (n : Nat) : Str :=
  [hexDigitChar (n / 4096 % 16), hexDigitChar (n / 256 % 16),
   hexDigitChar (n / 16 % 16), hexDigitChar (n % 16)]

/-- CPython's `json` encoding of one character inside a string literal
(`ensure_ascii=True`): printable ASCII except `"` and `\` is literal,
the five short escapes, `\uXXXX` otherwise, surrogate pairs above
`0xFFFF`. -/
def escChar (c : Char) : Str :=
  if c = '"' then ['\\', '"']
  else if c = '\\' then ['\\', '\\']
  else if c = Char.ofNat 8 then ['\\', 'b']
  else if c = Char.ofNat 9 then ['\\', 't']
  else if c = Char.ofNat 10 then ['\\', 'n']
  else if c = Char.ofNat 12 then ['\\', 'f']
  else if c = Char.ofNat 13 then ['\\', 'r']
  else if 0x20 ≤ c.toNat ∧ c.toNat ≤ 0x7e then [c]
  else if c.toNat < 0x10000 then '\\' :: 'u' :: hex4 c.toNat
  else
    ('\\' :: 'u' :: hex4 (0xd800 + (c.toNat - 0x10000) / 0x400)) ++
      ('\\' :: 'u' :: hex4 (0xdc00 + (c.toNat - 0x10000) % 0x400))

/-- The encoded body of a JSON string literal. -/
def encBody : Str → Str
  | [] => []
  | c :: cs => escChar c ++ encBody cs

/-- A whole JSON string literal, quotes included. -/
def encString (s : Str) : Str := '"' :: encBody s ++ ['"']

/-- The member lines of `json.dump(d, f, indent=2)`: each member on its own
line indented by two spaces, separated by commas. -/
def dumpsItems : List (Str × Str) → Str
  | [] => []
  | [(k, v)] => '\n' :: ' ' :: ' ' :: (encString k ++ ':' :: ' ' :: encString v)
  | (k, v) :: rest =>
    ('\n' :: ' ' :: ' ' :: (encString k ++ ':' :: ' ' :: encString v)) ++
      ',' :: dumpsItems rest

/-- `json.dump(d, f, indent=2)` for a flat string dict. -/
def dumps (d : List (Str × Str)) : Str :=
  match d with
  | [] => ['{', '}']
  | _ => '{' :: (dumpsItems d ++ ['\n', '}'])

/-- JSON whitespace. -/
def isWs (c : Char) : Bool :=
  c = ' ' || c = Char.ofNat 9 || c = Char.ofNat 10 || c = Char.ofNat 13

/-- Skip leading JSON whitespace. -/
def skipWs : Str → Str
  | [] => []
  | c :: cs => if isWs c then skipWs cs else c :: cs

/-- The value of a hex digit, as `json`'s `\uXXXX` scanner accepts it. -/
def hexVal (c : Char) : Option Nat :=
  if '0' ≤ c ∧ c ≤ '9' then some (c.toNat - '0'.toNat)
  else if 'a' ≤ c ∧ c ≤ 'f' then some (c.toNat - 'a'.toNat + 10)
  else if 'A' ≤ c ∧ c ≤ 'F' then some (c.toNat - 'A'.toNat + 10)
  else none

/-- Prepend a decoded character to a string-parse result. -/
def consFst (c : Char) : Option (Str × Str) → Option (Str × Str)
  | some (s, r) => some (c :: s, r)
  | none => none

/-- Scan four hex digits after `\u`. -/
def hexQuad (a b c d : Char) : Option Nat :=
  match hexVal a, hexVal b, hexVal c, hexVal d with
  | some ha, some hb, some hc, some hd =>
    some (ha * 4096 + hb * 256 + hc * 16 + hd)
  | _, _, _, _ => none

/-- One step of `json`'s scanner for the body of a string literal, after
the opening quote: the closing quote, a literal character (raw control
characters are rejected in strict mode), a short escape, `\uXXXX`, or a
high surrogate escape recombined with the following low one.  A lone
surrogate escape yields a code point no `Char` can carry and is not
modelled. -/
inductive ScanStep where
  | done (rest : Str)
  | ch (c : Char) (rest : Str)
  | bad

/-- Decode the low half of a surrogate-pair escape, after a high half with
value `n`. -/
def scanU2 (n : Nat) : Str → ScanStep
  | bs :: u2 :: a2 :: b2 :: c2 :: d2 :: rest4 =>
    if bs = '\\' ∧ u2 = 'u' then
      match hexQuad a2 b2 c2 d2 with
      | some m =>
        if 0xdc00 ≤ m ∧ m ≤ 0xdfff then
          .ch (Char.ofNat (0x10000 + (n - 0xd800) * 0x400 + (m - 0xdc00))) rest4
        else .bad
      | none => .bad
    else .bad
  | _ => .bad

/-- Decode a `\uXXXX` escape (recombining a surrogate pair). -/
def scanU : Str → ScanStep
  | a :: b :: c' :: d :: rest3 =>
    match hexQuad a b c' d with
    | some n =>
      if 0xd800 ≤ n ∧ n ≤ 0xdbff then scanU2 n rest3
      else if 0xdc00 ≤ n ∧ n ≤ 0xdfff then .bad
      else .ch (Char.ofNat n) rest3
    | none => .bad
  | _ => .bad

/-- Decode a short escape character. -/
def scanEsc (e : Char) (rest2 : Str) : ScanStep :=
  if e = '"' then .ch '"' rest2
  else if e = '\\' then .ch '\\' rest2
  else if e = '/' then .ch '/' rest2
  else if e = 'b' then .ch (Char.ofNat 8) rest2
  else if e = 'f' then .ch (Char.ofNat 12) rest2
  else if e = 'n' then .ch (Char.ofNat 10) rest2
  else if e = 'r' then .ch (Char.ofNat 13) rest2
  else if e = 't' then .ch (Char.ofNat 9) rest2
  else .bad

/-- Scan one character (or the closing quote) of a string literal body. -/
def scanStep : Str → ScanStep
  | [] => .bad
  | c :: rest =>
    if c = '"' then .done rest
    else if c = '\\' then
      match rest with
      | [] => .bad
      | e :: rest2 => if e = 'u' then scanU rest2 else scanEsc e rest2
    else if c.toNat < 0x20 then .bad
    else .ch c rest

/-- The scanner for the whole body of a string literal, one `scanStep` at a
time until the closing quote.  Each step consumes at least one input
character, so fuel of one more than the input length never runs out; the
fuel only makes the recursion evident. -/
def parseStrBody : Nat → Str → Option (Str × Str)
  | 0, _ => none
  | fuel + 1, s =>
    match scanStep s with
    | .done rest => some ([], rest)
    | .ch c rest => consFst c (parseStrBody fuel rest)
    | .bad => none

/-- Parse one `"key": "value"` member, leading whitespace included. -/
def parseMember (sfuel : Nat) (s : Str) : Option ((Str × Str) × Str) :=
  match skipWs s with
  | '"' :: r =>
    match parseStrBody sfuel r with
    | some (k, r2) =>
      match skipWs r2 with
      | ':' :: r3 =>
        match skipWs r3 with
        | '"' :: r4 =>
          match parseStrBody sfuel r4 with
          | some (v, r5) => some ((k, v), r5)
          | none => none
        | _ => none
      | _ => none
    | none => none
  | _ => none

/-- Parse the comma-separated members up to the closing brace; the fuel
bounds the member count by the input length. -/
def parseMembersAux (sfuel : Nat) : Nat → Str → Option (List (Str × Str) × Str)
  | 0, _ => none
  | fuel + 1, s =>
    match parseMember sfuel s with
    | some (kv, r) =>
      match skipWs r with
      | ',' :: r2 =>
        match parseMembersAux sfuel fuel r2 with
        | some (l, r3) => some (kv :: l, r3)
        | none => none
      | '}' :: r2 => some ([kv], r2)
      | _ => none
    | none => none

/-- `json.load` restricted to a flat string-valued object document. -/
def loads (s : Str) : Option (List (Str × Str)) :=
  match skipWs s with
  | '{' :: r =>
    match skipWs r with
    | '}' :: r2 => if skipWs r2 = [] then some [] else none
    | _ =>
      match parseMembersAux (s.length + 1) s.length r with
      | some (l, r2) => if skipWs r2 = [] then some l else none
      | none => none
  | _ => none

/-- The code point of a `Char` is a Unicode scalar value: below the
surrogate range or strictly between it and `0x110000`. -/
theorem char_valid_cases (c : Char) :
    c.toNat < 0xd800 ∨ (0xdfff < c.toNat ∧ c.toNat < 0x110000) := c.valid

/-- The scanner's hex-digit value inverts the encoder's hex digit. -/
theorem hexVal_hexDigitChar (n : Nat) (h : n < 16) :
    hexVal (hexDigitChar n) = some n := by
  interval_cases n <;> decide

/-- The scanner's four-digit value inverts the encoder's `hex4`. -/
theorem hexQuad_hex4 (n : Nat) (h : n < 65536) :
    hexQuad (hexDigitChar (n / 4096 % 16)) (hexDigitChar (n / 256 % 16))
      (hexDigitChar (n / 16 % 16)) (hexDigitChar (n % 16)) = some n := by
  rw [hexQuad, hexVal_hexDigitChar _ (Nat.mod_lt _ (by omega)),
    hexVal_hexDigitChar _ (Nat.mod_lt _ (by omega)),
    hexVal_hexDigitChar _ (Nat.mod_lt _ (by omega)),
    hexVal_hexDigitChar _ (Nat.mod_lt _ (by omega))]
  have hsum : n / 4096 % 16 * 4096 + n / 256 % 16 * 256 + n / 16 % 16 * 16 + n % 16 = n := by
    omega
  show some (n / 4096 % 16 * 4096 + n / 256 % 16 * 256 + n / 16 % 16 * 16 + n % 16) = some n
  rw [hsum]

/-- Scanning a literal (printable, unescaped) character. -/
theorem scanStep_lit (c : Char) (rest : Str) (h1 : ¬ c = '"')
    (h2 : ¬ c = '\\') (h9 : ¬ c.toNat < 0x20) :
    scanStep (c :: rest) = .ch c rest := by
  simp only [scanStep.eq_def]
  rw [if_neg h1, if_neg h2, if_neg h9]

/-- A backslash-u prefix hands over to the `\uXXXX` decoder. -/
theorem scanStep_u (s : Str) : scanStep ('\\' :: 'u' :: s) = scanU s := rfl

/-- Decoding the low surrogate escape the encoder emits. -/
theorem scanU2_enc (n m : Nat) (hm : m < 65536)
    (hr2 : 0xdc00 ≤ m ∧ m ≤ 0xdfff) (tail : Str) :
    scanU2 n ('\\' :: 'u' :: (hex4 m ++ tail)) =
      .ch (Char.ofNat (0x10000 + (n - 0xd800) * 0x400 + (m - 0xdc00))) tail := by
  simp +decide only [hex4, List.cons_append, List.nil_append, scanU2,
    hexQuad_hex4 m hm, hr2, and_self, ite_true]

/-- Decoding a non-surrogate `\uXXXX` escape the encoder emits. -/
theorem scanU_single (n : Nat) (hn : n < 65536)
    (hA : ¬ (0xd800 ≤ n ∧ n ≤ 0xdbff)) (hB : ¬ (0xdc00 ≤ n ∧ n ≤ 0xdfff))
    (tail : Str) :
    scanU (hex4 n ++ tail) = .ch (Char.ofNat n) tail := by
  simp only [hex4, List.cons_append, List.nil_append, scanU, hexQuad_hex4 n hn]
  rw [if_neg hA, if_neg hB]

/-- Decoding a surrogate-pair escape the encoder emits. -/
theorem scanU_pair (n m : Nat) (hn : n < 65536) (hm : m < 65536)
    (hr1 : 0xd800 ≤ n ∧ n ≤ 0xdbff) (hr2 : 0xdc00 ≤ m ∧ m ≤ 0xdfff)
    (tail : Str) :
    scanU (hex4 n ++ ('\\' :: 'u' :: (hex4 m ++ tail))) =
      .ch (Char.ofNat (0x10000 + (n - 0xd800) * 0x400 + (m - 0xdc00))) tail := by
  have h2 := scanU2_enc n m hm hr2 tail
  simp only [hex4, List.cons_append, List.nil_append] at h2 ⊢
  simp only [scanU, hexQuad_hex4 n hn, hr1, and_self, ite_true]
  exact h2

/-- The scanner decodes exactly one encoded character and continues. -/
theorem scanStep_escChar (c : Char) (tail : Str) :
    scanStep (escChar c ++ tail) = .ch c tail := by
  by_cases h1 : c = '"'
  · subst h1; rfl
  by_cases h2 : c = '\\'
  · subst h2; rfl
  by_cases h3 : c = Char.ofNat 8
  · subst h3; rfl
  by_cases h4 : c = Char.ofNat 9
  · subst h4; rfl
  by_cases h5 : c = Char.ofNat 10
  · subst h5; rfl
  by_cases h6 : c = Char.ofNat 12
  · subst h6; rfl
  by_cases h7 : c = Char.ofNat 13
  · subst h7; rfl
  by_cases h8 : 0x20 ≤ c.toNat ∧ c.toNat ≤ 0x7e
  · have hesc : escChar c = [c] := by
      simp [escChar, h1, h2, h3, h4, h5, h6, h7, h8]
    have h9 : ¬ c.toNat < 0x20 := by omega
    rw [hesc, List.cons_append, List.nil_append, scanStep_lit c tail h1 h2 h9]
  by_cases h10 : c.toNat < 0x10000
  · have hesc : escChar c = '\\' :: 'u' :: hex4 c.toNat := by
      simp [escChar, h1, h2, h3, h4, h5, h6, h7, h8, h10]
    have hA : ¬ (0xd800 ≤ c.toNat ∧ c.toNat ≤ 0xdbff) := by
      rcases char_valid_cases c with hv | hv <;> omega
    have hB : ¬ (0xdc00 ≤ c.toNat ∧ c.toNat ≤ 0xdfff) := by
      rcases char_valid_cases c with hv | hv <;> omega
    rw [hesc, List.cons_append, List.cons_append, scanStep_u,
      scanU_single c.toNat h10 hA hB, Char.ofNat_toNat]
  · have h11 : 0xdfff < c.toNat ∧ c.toNat < 0x110000 := by
      rcases char_valid_cases c with hv | hv
      · omega
      · exact hv
    have hesc : escChar c =
        ('\\' :: 'u' :: hex4 (0xd800 + (c.toNat - 0x10000) / 0x400)) ++
          ('\\' :: 'u' :: hex4 (0xdc00 + (c.toNat - 0x10000) % 0x400)) := by
      simp [escChar, h1, h2, h3, h4, h5, h6, h7, h8, h10]
    have hhi : 0xd800 + (c.toNat - 0x10000) / 0x400 < 65536 := by omega
    have hlo : 0xdc00 + (c.toNat - 0x10000) % 0x400 < 65536 := by omega
    have hr1 : 0xd800 ≤ 0xd800 + (c.toNat - 0x10000) / 0x400 ∧
        0xd800 + (c.toNat - 0x10000) / 0x400 ≤ 0xdbff := ⟨by omega, by omega⟩
    have hr2 : 0xdc00 ≤ 0xdc00 + (c.toNat - 0x10000) % 0x400 ∧
        0xdc00 + (c.toNat - 0x10000) % 0x400 ≤ 0xdfff := ⟨by omega, by omega⟩
    have harith : 0x10000 +
        (0xd800 + (c.toNat - 0x10000) / 0x400 - 0xd800) * 0x400 +
        (0xdc00 + (c.toNat - 0x10000) % 0x400 - 0xdc00) = c.toNat := by
      have := Nat.div_add_mod (c.toNat - 0x10000) 0x400
      omega
    rw [hesc]
    simp only [List.cons_append, List.append_assoc]
    rw [scanStep_u, scanU_pair _ _ hhi hlo hr1 hr2, harith, Char.ofNat_toNat]

/-- Unfolding `parseStrBody` at a closing quote. -/
theorem parseStrBody_done (fuel : Nat) (s rest : Str)
    (h : scanStep s = .done rest) :
    parseStrBody (fuel + 1) s = some ([], rest) := by
  rw [parseStrBody, h]

/-- Unfolding `parseStrBody` at a decoded character. -/
theorem parseStrBody_ch (fuel : Nat) (s : Str) (c : Char) (rest : Str)
    (h : scanStep s = .ch c rest) :
    parseStrBody (fuel + 1) s = consFst c (parseStrBody fuel rest) := by
  rw [parseStrBody, h]

/-- The scanner inverts the encoder on a whole string body. -/
theorem parseStrBody_encBody (s : Str) : ∀ (fuel : Nat), s.length < fuel →
    ∀ (tail : Str),
      parseStrBody fuel (encBody s ++ '"' :: tail) = some (s, tail) := by
  induction s with
  | nil =>
    intro fuel hf tail
    cases fuel with
    | zero => omega
    | succ f =>
      rw [encBody, List.nil_append]
      exact parseStrBody_done f ('"' :: tail) tail rfl
  | cons c cs ih =>
    intro fuel hf tail
    cases fuel with
    | zero => omega
    | succ f =>
      rw [encBody, List.append_assoc,
        parseStrBody_ch f _ _ _ (scanStep_escChar c (encBody cs ++ '"' :: tail)),
        ih f (by simp at hf ⊢; omega) tail]
      rfl

/-- One `"key": "value"` member, as the whitespace-skipping scanner meets
it inside a `json.dump(…, indent=2)` document. -/
theorem parseMember_enc (sfuel : Nat) (k v : Str)
    (hk : k.length < sfuel) (hv : v.length < sfuel) (rest : Str) :
    parseMember sfuel
      ('\n' :: ' ' :: ' ' ::
        (encString k ++ (':' :: ' ' :: (encString v ++ rest)))) =
      some ((k, v), rest) := by
  have h1 : skipWs ('\n' :: ' ' :: ' ' ::
      (encString k ++ (':' :: ' ' :: (encString v ++ rest)))) =
      '"' :: (encBody k ++ '"' :: (':' :: ' ' :: (encString v ++ rest))) := by
    rw [skipWs, if_pos (by decide), skipWs, if_pos (by decide),
      skipWs, if_pos (by decide)]
    simp only [encString, List.cons_append, List.append_assoc,
      List.singleton_append, List.nil_append]
    rw [skipWs, if_neg (by decide)]
  have h2 : skipWs (':' :: ' ' :: (encString v ++ rest)) =
      ':' :: ' ' :: (encString v ++ rest) := by
    rw [skipWs, if_neg (by decide)]
  have h3 : skipWs (' ' :: (encString v ++ rest)) =
      '"' :: (encBody v ++ '"' :: rest) := by
    rw [skipWs, if_pos (by decide)]
    simp only [encString, List.cons_append, List.append_assoc,
      List.singleton_append, List.nil_append]
    rw [skipWs, if_neg (by decide)]
  simp only [parseMember.eq_def, h1, h2, h3,
    parseStrBody_encBody k sfuel hk, parseStrBody_encBody v sfuel hv]

/-- The comma-separated member list of a `json.dump(…, indent=2)` document
parses back to the dict it encodes. -/
theorem parseMembersAux_enc (sfuel : Nat) :
    ∀ (d : List (Str × Str)), d ≠ [] →
      (∀ kv ∈ d, kv.1.length < sfuel ∧ kv.2.length < sfuel) →
      ∀ (fuel : Nat), d.length ≤ fuel → ∀ (rest : Str),
        parseMembersAux sfuel fuel (dumpsItems d ++ '\n' :: '}' :: rest) =
          some (d, rest) := by
  intro d
  induction d with
  | nil => intro hne; exact absurd rfl hne
  | cons kv tl ih =>
    intro hne hlen fuel hf rest
    obtain ⟨k, v⟩ := kv
    have hk := (hlen (k, v) (by simp)).1
    have hv := (hlen (k, v) (by simp)).2
    cases tl with
    | nil =>
      cases fuel with
      | zero => simp at hf
      | succ f =>
        rw [parseMembersAux]
        simp only [dumpsItems, List.cons_append, List.append_assoc,
          List.nil_append]
        rw [parseMember_enc sfuel k v hk hv ('\n' :: '}' :: rest)]
        have hs1 : skipWs ('\n' :: '}' :: rest) = '}' :: rest := by
          rw [skipWs, if_pos (by decide), skipWs, if_neg (by decide)]
        simp +decide only [hs1]
    | cons kv2 tl2 =>
      cases fuel with
      | zero => simp at hf
      | succ f =>
        rw [parseMembersAux]
        simp only [dumpsItems, List.cons_append, List.append_assoc,
          List.nil_append]
        rw [parseMember_enc sfuel k v hk hv
          (',' :: (dumpsItems (kv2 :: tl2) ++ '\n' :: '}' :: rest))]
        have hs2 : skipWs (',' :: (dumpsItems (kv2 :: tl2) ++ '\n' :: '}' :: rest)) =
            ',' :: (dumpsItems (kv2 :: tl2) ++ '\n' :: '}' :: rest) := by
          rw [skipWs, if_neg (by decide)]
        simp +decide only [hs2,
          ih (by simp) (fun x hx => hlen x (by simp [hx])) f
            (by simp at hf ⊢; omega) rest]

/-- Every character encodes to at least one character. -/
theorem escChar_length_pos (c : Char) : 1 ≤ (escChar c).length := by
  unfold escChar
  repeat' split
  all_goals (try simp only [hex4, List.length_cons, List.length_append,
    List.length_nil])
  all_goals omega

/-- Encoding a string body never shortens it. -/
theorem encBody_length (s : Str) : s.length ≤ (encBody s).length := by
  induction s with
  | nil => simp [encBody]
  | cons c cs ih =>
    rw [encBody]
    have := escChar_length_pos c
    simp only [List.length_append, List.length_cons]
    omega

/-- A string literal is at least two characters longer than its content. -/
theorem encString_length (s : Str) : s.length + 2 ≤ (encString s).length := by
  have := encBody_length s
  simp only [encString, List.length_cons, List.length_append]
  omega

/-- The member lines are at least as long as the member count. -/
theorem dumpsItems_length_ge (d : List (Str × Str)) :
    d.length ≤ (dumpsItems d).length := by
  induction d with
  | nil => simp [dumpsItems]
  | cons kv tl ih =>
    obtain ⟨k, v⟩ := kv
    cases tl with
    | nil => simp [dumpsItems]
    | cons kv2 tl2 =>
      simp only [dumpsItems, List.length_append, List.length_cons] at ih ⊢
      omega

/-- Each member's key and value are shorter than the member lines. -/
theorem member_length_lt (d : List (Str × Str)) (k v : Str)
    (hm : (k, v) ∈ d) :
    k.length < (dumpsItems d).length ∧ v.length < (dumpsItems d).length := by
  induction d with
  | nil => simp at hm
  | cons kv tl ih =>
    obtain ⟨k0, v0⟩ := kv
    rcases List.mem_cons.mp hm with he | ht
    · obtain ⟨hk0, hv0⟩ := Prod.mk.injEq k v k0 v0 ▸ he
      subst hk0; subst hv0
      have h1 := encString_length k
      have h2 := encString_length v
      cases tl with
      | nil =>
        simp only [dumpsItems, List.length_cons, List.length_append]
        omega
      | cons kv2 tl2 =>
        simp only [dumpsItems, List.length_cons, List.length_append]
        omega
    · cases tl with
      | nil => simp at ht
      | cons kv2 tl2 =>
        have := ih ht
        simp only [dumpsItems, List.length_cons, List.length_append] at this ⊢
        omega

/-- C8: the flat string-valued config dict round-trips through
`json.dump(…, indent=2)` and `json.load`. -/
theorem json_config_round_trips (d : List (Str × Str))
    (hnd : (d.map Prod.fst).Nodup) :
    loads (dumps d) = some d := by
  cases d with
  | nil => rfl
  | cons kv tl =>
    obtain ⟨k, v⟩ := kv
    have hshape : dumps ((k, v) :: tl) =
        '{' :: (dumpsItems ((k, v) :: tl) ++ ['\n', '}']) := rfl
    have hskip : ∃ Z, skipWs (dumpsItems ((k, v) :: tl) ++ ['\n', '}']) =
        '"' :: Z := by
      cases tl with
      | nil =>
        simp only [dumpsItems, List.cons_append, List.append_assoc,
          List.nil_append, encString]
        rw [skipWs, if_pos (by decide), skipWs, if_pos (by decide),
          skipWs, if_pos (by decide), skipWs, if_neg (by decide)]
        exact ⟨_, rfl⟩
      | cons kv2 tl2 =>
        simp only [dumpsItems, List.cons_append, List.append_assoc,
          List.nil_append, encString]
        rw [skipWs, if_pos (by decide), skipWs, if_pos (by decide),
          skipWs, if_pos (by decide), skipWs, if_neg (by decide)]
        exact ⟨_, rfl⟩
    rcases hskip with ⟨Z, hZ⟩
    have h0 : skipWs ('{' :: (dumpsItems ((k, v) :: tl) ++ ['\n', '}'])) =
        '{' :: (dumpsItems ((k, v) :: tl) ++ ['\n', '}']) := by
      rw [skipWs, if_neg (by decide)]
    have hig := dumpsItems_length_ge ((k, v) :: tl)
    have hfuel : ((k, v) :: tl).length ≤
        ('{' :: (dumpsItems ((k, v) :: tl) ++ ['\n', '}'])).length := by
      simp only [List.length_cons, List.length_append] at hig ⊢
      omega
    have hbound : ∀ kv ∈ (k, v) :: tl,
        kv.1.length < ('{' :: (dumpsItems ((k, v) :: tl) ++ ['\n', '}'])).length + 1 ∧
        kv.2.length < ('{' :: (dumpsItems ((k, v) :: tl) ++ ['\n', '}'])).length + 1 := by
      intro x hx
      have := member_length_lt ((k, v) :: tl) x.1 x.2 (by simpa using hx)
      simp only [List.length_cons, List.length_append] at this ⊢
      omega
    have hL4 := parseMembersAux_enc
      (('{' :: (dumpsItems ((k, v) :: tl) ++ ['\n', '}'])).length + 1)
      ((k, v) :: tl) (by simp) hbound
      (('{' :: (dumpsItems ((k, v) :: tl) ++ ['\n', '}'])).length) hfuel []
    rw [hshape]
    simp only [loads.eq_def, h0]
    simp +decide only [hZ]
    simp only [hL4]
    rfl

/-- Witness for C8 at a two-key config dict of the shape `main` writes. -/
theorem json_config_round_trips_witness :
    ((([(str "gateway_id", str "abc"),
        (str "region", str "us-east-1")]).map Prod.fst).Nodup) ∧
    loads (dumps [(str "gateway_id", str "abc"),
        (str "region", str "us-east-1")]) =
      some [(str "gateway_id", str "abc"), (str "region", str "us-east-1")] :=
  ⟨by decide,
    json_config_round_trips
      [(str "gateway_id", str "abc"), (str "region", str "us-east-1")]
      (by decide)⟩
